import Mathlib

/-
Shallow embedding of the recursive ray-tracing core of `src/RayTracer.cpp`
(class `RayTracer`), checked against the natural-language specification.

Modelling conventions:
* C++ `double` is embedded as `ℚ`.  The libm function `sqrt` is an external
  collaborator and is threaded through the configuration as an abstract
  function `sq : ℚ → ℚ`; concrete witnesses instantiate it with `ratSqrt`,
  which is exact on perfect squares (the only values the witnesses reach).
* `vec3f` (from the external vecmath library) is embedded as a triple of
  rationals with componentwise operations, matching the operations the
  tracer uses: `prod`, `dot`, scalar multiplication, `clamp`, `iszero`,
  `normalize`, and division of a vector by a scalar.
* Materials are scene-owned objects referenced by pointer in the C++ code;
  pointer identity is embedded as a natural-number id (`matId`), and the
  scene carries the map from ids to material data.  The stack-allocated
  `Material air` sentinel of `RayTracer::trace` gets the reserved id
  `airId`; scene-produced intersections never carry it (distinct live
  objects have distinct addresses), which the general theorems take as the
  hypothesis `SceneOK`.
* The global configuration object `traceUI` is embedded as an explicit
  `Config` record read by every call, one field per getter the tracer
  uses.
* `VecConeGenerator` (its implementation file is not part of the sources
  here; per the spec it draws jittered directions in a cone around a
  center direction from an external entropy source) is embedded as the
  abstract sampler `coneSample : vec3f → ℕ → vec3f` in the configuration:
  `coneSample c j` is the j-th generated direction for center `c`.
* `rand()` in `tracePixel` is likewise an external entropy source, embedded
  as the abstract per-subsample streams `rnd1`, `rnd2` in `Config`.
-/

namespace RT

/-- Embedding of `vec3f`: a triple of rationals. -/
abbrev vec3f : Type := ℚ × ℚ × ℚ

/-- Componentwise product, `prod(a, b)` of the vecmath library. -/
def vprod (a b : vec3f) : vec3f := (a.1 * b.1, a.2.1 * b.2.1, a.2.2 * b.2.2)

/-- Dot product `a.dot(b)`. -/
def dot (a b : vec3f) : ℚ := a.1 * b.1 + a.2.1 * b.2.1 + a.2.2 * b.2.2

/-- Division of a vector by a scalar, `v / q`. -/
def vdiv (v : vec3f) (q : ℚ) : vec3f := (v.1 / q, v.2.1 / q, v.2.2 / q)

/-- Per-channel clamp to [0,1], `vec3f::clamp()` (spec: result clamped to
[0,1] per channel at the top level). -/
def clamp (v : vec3f) : vec3f :=
  (max 0 (min 1 v.1), max 0 (min 1 v.2.1), max 0 (min 1 v.2.2))

/-- Normalisation `v.normalize()`: divide by the length, where the length
is computed by the external square-root function `sq`. -/
def normalize (sq : ℚ → ℚ) (v : vec3f) : vec3f := vdiv v (sq (dot v v))

/-- Exact rational square root on perfect squares (nonnegative numerator
and denominator both perfect squares); used to instantiate the abstract
`sq` field in concrete witnesses, where only perfect squares arise. -/
def ratSqrt (q : ℚ) : ℚ := (Nat.sqrt q.num.toNat : ℚ) / (Nat.sqrt q.den : ℚ)

/-- Embedding of `ray`: origin and direction. -/
structure ray where
  origin : vec3f
  dir : vec3f
deriving DecidableEq

/-- Embedding of `ray::at(t) = origin + t * direction`. -/
def ray.at (r : ray) (t : ℚ) : vec3f := r.origin + t • r.dir

/-- Embedding of the intersection record `isect`: parametric distance,
surface normal, and the id standing for the pointer to the hit material. -/
structure isect where
  t : ℚ
  N : vec3f
  matId : ℕ
deriving DecidableEq

/-- Embedding of `Material`: reflectivity `kr`, transmissivity `kt`,
refractive index `index`, and the external local-shading function
`Material::shade` (the scene argument is baked into the function). -/
structure Material where
  kr : vec3f
  kt : vec3f
  index : ℚ
  shade : ray → isect → vec3f

/-- Embedding of the external scene collaborator: the nearest-hit query
`Scene::intersect`, the pointer-to-material dereference (id to data), and
the camera query `rayThrough` used by `tracePixel`. -/
structure Scene where
  intersect : ray → Option isect
  mat : ℕ → Material
  rayThrough : ℚ → ℚ → ray

/-- Embedding of the configuration surface `traceUI` read by the tracer:
one field per getter used in `RayTracer.cpp`, plus the two external
collaborators `sqrt` (libm) and the glossy cone sampler. -/
structure Config where
  /-- traceUI->getDepth(): the configured maximum recursion depth. -/
  maxDepth : ℕ
  /-- traceUI->GetIntensityThreshold(). -/
  intensityThreshold : ℚ
  /-- traceUI->IsEnableReflection(). -/
  isEnableReflection : Bool
  /-- traceUI->IsEnableRefraction(). -/
  isEnableRefraction : Bool
  /-- traceUI->IsEnableFresnel(). -/
  isEnableFresnel : Bool
  /-- traceUI->GetFresnelRatio(): the configured Fresnel blend strength. -/
  fresnelBlend : ℚ
  /-- traceUI->GetGlossyReflectionSample(). -/
  glossyReflectionSample : ℕ
  /-- traceUI->GetSuperSampling(). -/
  superSampling : ℕ
  /-- External libm sqrt. -/
  sq : ℚ → ℚ
  /-- External glossy cone sampler: j-th direction for a given center. -/
  coneSample : vec3f → ℕ → vec3f
  /-- External entropy source rand()/RAND_MAX for the y jitter of
  sub-pixel (si, sj) in `tracePixel`. -/
  rnd1 : ℕ → ℕ → ℚ
  /-- External entropy source rand()/RAND_MAX for the x jitter. -/
  rnd2 : ℕ → ℕ → ℚ

/-- Embedding of `RAY_EPSILON` (from global.h, not among the sources):
the small positive displacement that keeps secondary rays from
immediately re-hitting their own origin surface.  Its exact value is
irrelevant to every claim. -/
def RAY_EPSILON : ℚ := 1 / 100000

/-- Embedding of `RayTracer::TraceParam`: current ray, accumulated
attenuation weight `thresh`, recursion depth, and the material stack
(front = head of the list).  The `scene` field of the C++ struct is
always the tracer's single scene and is passed as a separate argument to
the functions below. -/
structure TraceParam where
  r : ray
  thresh : vec3f
  depth : ℕ
  material_stack : List ℕ

/-- Front of the material stack, `material_stack.front()`.  The C++ deque
front on an empty deque is undefined behaviour; the embedding totalises it
with the default id, and the stack-invariant theorem shows the stack is
never empty on any trace path. -/
def stackFront (l : List ℕ) : ℕ := l.headI

/-- Embedding of `RayTracer::IsLeavingObject`: the hit material is
reference-equal (same id) to the material-stack front. -/
def IsLeavingObject (p : TraceParam) (i : isect) : Bool :=
  i.matId == stackFront p.material_stack

/-- Normal-orientation fix of `traceRay` lines 64-69: when leaving an
object the normal is reversed. -/
def flipIsect (p : TraceParam) (i0 : isect) : isect :=
  if IsLeavingObject p i0 then { i0 with N := -i0.N } else i0

/-- Incident refractive index `ni` as assigned in `GetFresnelCoeff`
(lines 225-235): from the hit material when leaving, else from the
material-stack front. -/
def fresnelNi (s : Scene) (p : TraceParam) (i : isect) : ℚ :=
  if IsLeavingObject p i then (s.mat i.matId).index
  else (s.mat (stackFront p.material_stack)).index

/-- Transmitted refractive index `nt` as assigned in `GetFresnelCoeff`:
from the material-stack front when leaving, else from the hit material. -/
def fresnelNt (s : Scene) (p : TraceParam) (i : isect) : ℚ :=
  if IsLeavingObject p i then (s.mat (stackFront p.material_stack)).index
  else (s.mat i.matId).index

/-- Embedding of `RayTracer::GetFresnelCoeff` (Schlick approximation),
lines 222-259 of RayTracer.cpp. -/
def GetFresnelCoeff (cfg : Config) (s : Scene) (p : TraceParam) (i : isect) : ℚ :=
  let ni := fresnelNi s p i
  let nt := fresnelNt s p i
  let r0 := ((ni - nt) / (ni + nt)) ^ 2
  let dot_rn := dot i.N (-p.r.dir)
  if ni ≤ nt then
    r0 + (1 - r0) * (1 - dot_rn) ^ 5
  else
    let nr := ni / nt
    let root := 1 - nr * nr * (1 - dot_rn * dot_rn)
    if root < 0 then 1
    else
      let cos_theta_t := cfg.sq (1 - ni / nt)
      r0 + (1 - r0) * (1 - cos_theta_t) ^ 5

/-- Incident index `ni` as assigned in `traceRefraction` (lines 169-183):
the hit material when leaving, else the stack front `m2`. -/
def refractNi (s : Scene) (p : TraceParam) (i : isect) : ℚ :=
  if IsLeavingObject p i then (s.mat i.matId).index
  else (s.mat (stackFront p.material_stack)).index

/-- Transmitted index `nt` as assigned in `traceRefraction`: the medium
below the stack front (`mat_stack[1]`) when leaving, else the hit
material. -/
def refractNt (s : Scene) (p : TraceParam) (i : isect) : ℚ :=
  if IsLeavingObject p i then (s.mat (stackFront p.material_stack.tail)).index
  else (s.mat i.matId).index

/-- Stack update performed on the branch copy in `traceRefraction`:
pop_front when leaving the hit material, push_front the hit material when
entering it. -/
def refractStackUpdate (p : TraceParam) (i : isect) : List ℕ :=
  if IsLeavingObject p i then p.material_stack.tail
  else i.matId :: p.material_stack

/-- Child context built by `traceReflection` (next_param, lines 130-135
and 147-152): displaced origin, given direction, attenuation multiplied by
`kr`, depth + 1, same material-stack copy. -/
def reflectNextParam (p : TraceParam) (kr out_point dir : vec3f) : TraceParam :=
  { r := { origin := out_point, dir := dir }
    thresh := vprod p.thresh kr
    depth := p.depth + 1
    material_stack := p.material_stack }

/-- Lines 184-199 of `traceRefraction`: refraction ratio `nr = ni/nt`,
`cos = N . (-direction)`, discriminant `root = 1 - nr*nr*(1 - cos*cos)`,
and the transmitted direction `(nr*cos - sqrt(root)) * N - nr * (-direction)`;
`none` encodes total internal reflection (`root < 0`: no refracted ray is
spawned). -/
def refractionDir (cfg : Config) (s : Scene) (p : TraceParam) (i : isect) :
    Option vec3f :=
  let ni := refractNi s p i
  let nt := refractNt s p i
  let nr := ni / nt
  let dot_rn := dot i.N (-p.r.dir)
  let root := 1 - nr * nr * (1 - dot_rn * dot_rn)
  if root < 0 then none
  else
    let coeff := nr * dot_rn - cfg.sq root
    some (coeff • i.N - nr • -p.r.dir)

/-- Child context built by `traceRefraction` (next_param, lines 202-207):
displaced origin, transmitted direction, attenuation multiplied by `kt`,
depth + 1, updated stack copy. -/
def refractNextParam (p : TraceParam) (kt push_point dir : vec3f)
    (st : List ℕ) : TraceParam :=
  { r := { origin := push_point, dir := dir }
    thresh := vprod p.thresh kt
    depth := p.depth + 1
    material_stack := st }

mutual

/-- Embedding of `RayTracer::traceRay` (lines 43-107): intensity-threshold
early termination, nearest-hit query, and the hit branch. -/
def traceRay (cfg : Config) (s : Scene) (p : TraceParam) : vec3f :=
  if p.thresh.1 ≤ cfg.intensityThreshold
      ∧ p.thresh.2.1 ≤ cfg.intensityThreshold
      ∧ p.thresh.2.2 ≤ cfg.intensityThreshold then
    0
  else
    match s.intersect p.r with
    | some i0 => traceRayHit cfg s p i0
    | none => (0, 0, 0)
termination_by (3 * (cfg.maxDepth - p.depth) + 2, 0)

/-- Hit branch of `traceRay` (lines 54-97): normal fix, local shading
scaled by the weight, reflection and refraction branches, and the
conditional Fresnel blend. -/
def traceRayHit (cfg : Config) (s : Scene) (p : TraceParam) (i0 : isect) : vec3f :=
  let i := flipIsect p i0
  let m := s.mat i.matId
  let intensity := vprod (m.shade p.r i) p.thresh
  let reflection := if cfg.isEnableReflection then traceReflection cfg s p i else 0
  let refraction := if cfg.isEnableRefraction then traceRefraction cfg s p i else 0
  if cfg.isEnableFresnel
      ∧ ((s.mat (stackFront p.material_stack)).index ≠ 1 ∨ m.index ≠ 1) then
    let fresnel_coeff := GetFresnelCoeff cfg s p i
    intensity
      + ((cfg.fresnelBlend * fresnel_coeff) • reflection
          + (1 - cfg.fresnelBlend) • reflection)
      + ((cfg.fresnelBlend * (1 - fresnel_coeff)) • refraction
          + (1 - cfg.fresnelBlend) • refraction)
  else
    intensity + reflection + refraction
termination_by (3 * (cfg.maxDepth - p.depth) + 1, 0)

/-- Embedding of `RayTracer::traceReflection` (lines 109-157). -/
def traceReflection (cfg : Config) (s : Scene) (p : TraceParam) (i : isect) : vec3f :=
  let m := s.mat i.matId
  if h : m.kr = 0 ∨ cfg.maxDepth ≤ p.depth then
    0
  else
    let out_point := p.r.at i.t + RAY_EPSILON • i.N
    let dot_rn := dot i.N (-p.r.dir)
    let center_dir := normalize cfg.sq ((2 * dot_rn) • i.N - -p.r.dir)
    if cfg.glossyReflectionSample = 0 then
      traceRay cfg s (reflectNextParam p m.kr out_point center_dir)
    else
      vdiv
        (∑ j in Finset.range cfg.glossyReflectionSample,
          traceRay cfg s
            (reflectNextParam p m.kr out_point (cfg.coneSample center_dir j)))
        (cfg.glossyReflectionSample : ℚ)
termination_by (3 * (cfg.maxDepth - p.depth), 0)
decreasing_by
  all_goals
    simp only [reflectNextParam]
    have hd := (not_or.mp h).2
    omega

/-- Embedding of `RayTracer::traceRefraction` (lines 159-215); the
direction computation and total-internal-reflection check of lines
184-199 live in the plain definition `refractionDir` above. -/
def traceRefraction (cfg : Config) (s : Scene) (p : TraceParam) (i : isect) : vec3f :=
  let m := s.mat i.matId
  if h : ¬ m.kt = 0 ∧ p.depth < cfg.maxDepth then
    match refractionDir cfg s p i with
    | none => 0
    | some refraction_dir =>
      traceRay cfg s (refractNextParam p m.kt (p.r.at i.t - RAY_EPSILON • i.N)
        refraction_dir (refractStackUpdate p i))
  else
    0
termination_by (3 * (cfg.maxDepth - p.depth), 0)
decreasing_by
  simp only [refractNextParam]
  have hd := h.2
  omega

end

/-- Reserved id of the stack-allocated `Material air` sentinel pushed by
`RayTracer::trace`; distinct from every scene-owned material address. -/
def airId : ℕ := 0

/-- Default-constructed `Material` (from the external material model; the
spec fixes the synthetic air material to refractive index 1.0 with no
reflectivity or transmissivity). -/
def airMaterial : Material :=
  { kr := 0, kt := 0, index := 1, shade := fun _ _ => 0 }

/-- Initial trace context built in `RayTracer::trace` (lines 30-36):
weight (1,1,1), depth 0, stack holding only the air sentinel. -/
def initParam (r : ray) : TraceParam :=
  { r := r, thresh := (1, 1, 1), depth := 0, material_stack := [airId] }

/-- Embedding of `RayTracer::trace` (lines 25-39); the camera ray
generation is external, so the primary ray is taken as an argument. -/
def trace (cfg : Config) (s : Scene) (r : ray) : vec3f :=
  clamp (traceRay cfg s (initParam r))

/-- Embedding of the `RayTracer` object state used by the per-pixel entry
points: the byte frame buffer (index to byte value), its dimensions, and
the scene pointer (`none` embeds a null `scene`). -/
structure RTState where
  buffer : ℕ → ℕ
  buffer_width : ℕ
  buffer_height : ℕ
  scene : Option Scene

/-- Pixel write of `tracePixel` lines 391-395: three bytes at offset
`(i + j*width)*3`, each `(int)(255.0 * col[c])` (the colours written are
averages of clamped values, hence nonnegative, so C truncation is the
floor). -/
def writePixel (st : RTState) (i j : ℕ) (col : vec3f) : RTState :=
  let base := (i + j * st.buffer_width) * 3
  { st with buffer := fun k =>
      if k = base then (⌊255 * col.1⌋).toNat
      else if k = base + 1 then (⌊255 * col.2.1⌋).toNat
      else if k = base + 2 then (⌊255 * col.2.2⌋).toNat
      else st.buffer k }

/-- Embedding of `RayTracer::tracePixel` (lines 353-396): no-op on a null
scene, else one camera ray per pixel, or an N by N jittered sub-pixel grid
averaged when supersampling is positive. -/
def tracePixel (cfg : Config) (st : RTState) (i j : ℕ) : RTState :=
  match st.scene with
  | none => st
  | some s =>
    let x : ℚ := (i : ℚ) / (st.buffer_width : ℚ)
    let y : ℚ := (j : ℚ) / (st.buffer_height : ℚ)
    let col : vec3f :=
      if 0 < cfg.superSampling then
        let sample := cfg.superSampling
        let pixel_w : ℚ := 1 / (st.buffer_width : ℚ)
        let pixel_h : ℚ := 1 / (st.buffer_height : ℚ)
        let sub_pixel_w := pixel_w / (sample : ℚ)
        let sub_pixel_h := pixel_h / (sample : ℚ)
        vdiv
          (∑ si in Finset.range sample, ∑ sj in Finset.range sample,
            trace cfg s
              (s.rayThrough
                ((cfg.rnd2 si sj - 1/2) * sub_pixel_w
                  + (x + ((sj : ℚ) / (sample : ℚ) - 1/2) * pixel_w))
                ((cfg.rnd1 si sj - 1/2) * sub_pixel_h
                  + (y + ((si : ℚ) / (sample : ℚ) - 1/2) * pixel_h))))
          ((sample : ℚ) * (sample : ℚ))
      else
        trace cfg s (s.rayThrough x y)
    writePixel st i j col

/-- Embedding of `RayTracer::traceLines` (lines 339-351): no-op on a null
scene, else clamp `stop` to the buffer height and trace every pixel of
rows `start ≤ j < stop`. -/
def traceLines (cfg : Config) (st : RTState) (start stop : ℕ) : RTState :=
  match st.scene with
  | none => st
  | some _ =>
    let stop2 := min stop st.buffer_height
    (List.range (stop2 - start)).foldl
      (fun acc dj =>
        (List.range acc.buffer_width).foldl
          (fun acc2 i => tracePixel cfg acc2 i (start + dj)) acc)
      st

/-- Hypothesis that scene-owned materials are distinct live objects from
the stack-allocated air sentinel: an intersection produced by the scene
never carries the sentinel id. -/
def SceneOK (s : Scene) : Prop :=
  ∀ r i, s.intersect r = some i → i.matId ≠ airId

/-- One recursive spawn of the tracer, relating a trace context to the
child context it hands to `traceRay`: either a reflection child (same
material-stack copy) or a refraction child (stack updated by
`refractStackUpdate`), both at depth + 1 and only from a context whose
depth is below the configured maximum (the guards of lines 113 and 163).
The displaced origin and outgoing direction are existentially free, so
every spawn the code performs (mirror, glossy sample, or transmitted ray)
is an instance. -/
inductive TraceStep (cfg : Config) (s : Scene) : TraceParam → TraceParam → Prop where
  | reflect (p : TraceParam) (i0 : isect) (out_point dir : vec3f)
      (hhit : s.intersect p.r = some i0) (hd : p.depth < cfg.maxDepth) :
      TraceStep cfg s p
        (reflectNextParam p (s.mat (flipIsect p i0).matId).kr out_point dir)
  | refract (p : TraceParam) (i0 : isect) (push_point dir : vec3f)
      (hhit : s.intersect p.r = some i0) (hd : p.depth < cfg.maxDepth) :
      TraceStep cfg s p
        (refractNextParam p (s.mat (flipIsect p i0).matId).kt push_point dir
          (refractStackUpdate p (flipIsect p i0)))

/-- Invariant of the material stack along a trace path: nonempty, the air
sentinel sits at the bottom, and it appears nowhere else. -/
def GoodStack (l : List ℕ) : Prop :=
  l ≠ [] ∧ l.getLast? = some airId ∧ airId ∉ l.dropLast

/-- Fully mirrored material of the end-to-end termination scenario:
kr = (1,1,1), kt = 0 (spec section 8). -/
def mirrorMaterial : Material :=
  { kr := (1, 1, 1), kt := 0, index := 1, shade := fun _ _ => (1/2, 1/4, 1/5) }

/-- Scene whose every ray hits the mirrored material head-on (the sphere
traced into itself: the reflected ray hits the same surface again). -/
def mirrorScene : Scene :=
  { intersect := fun _ => some { t := 1, N := (0, 0, -1), matId := 1 }
    mat := fun id => if id = 1 then mirrorMaterial else airMaterial
    rayThrough := fun _ _ => { origin := (0, 0, 0), dir := (0, 0, 1) } }

/-- Concrete configuration used by the witnesses: depth limit 1, the
default intensity threshold 0.01, reflection and refraction enabled,
Fresnel disabled, mirror (non-glossy) reflection, no supersampling. -/
def cfgBase : Config :=
  { maxDepth := 1
    intensityThreshold := 1/100
    isEnableReflection := true
    isEnableRefraction := true
    isEnableFresnel := false
    fresnelBlend := 1
    glossyReflectionSample := 0
    superSampling := 0
    sq := ratSqrt
    coneSample := fun c _ => c
    rnd1 := fun _ _ => 1/2
    rnd2 := fun _ _ => 1/2 }

/-- Primary ray of the end-to-end scenario: from the origin straight at
the mirrored surface. -/
def rayW : ray := { origin := (0, 0, 0), dir := (0, 0, 1) }

/-- The intersection record every `mirrorScene` query returns. -/
def iW : isect := { t := 1, N := (0, 0, -1), matId := 1 }

/-- Top-level trace context of the end-to-end scenario. -/
def pW : TraceParam := initParam rayW

/-- Context whose accumulated weight is below the intensity threshold on
every channel. -/
def pLow : TraceParam :=
  { r := rayW, thresh := (0, 0, 0), depth := 0, material_stack := [airId] }

/-- Transmissive glass material (refractive index 2) for the
total-internal-reflection witnesses. -/
def glassMaterial : Material :=
  { kr := 0, kt := (1, 1, 1), index := 2, shade := fun _ _ => 0 }

/-- Scene producing a grazing hit on the glass surface. -/
def glassScene : Scene :=
  { intersect := fun _ => some { t := 1, N := (1, 0, 0), matId := 2 }
    mat := fun id => if id = 2 then glassMaterial else airMaterial
    rayThrough := fun _ _ => rayW }

/-- Context travelling inside the glass medium (glass on the stack above
the air sentinel). -/
def pGlass : TraceParam :=
  { r := { origin := (0, 0, 0), dir := (0, 0, 1) }
    thresh := (1, 1, 1), depth := 0, material_stack := [2, airId] }

/-- Grazing intersection with the glass surface (ray direction orthogonal
to the normal, so the incident cosine is zero). -/
def iGlass : isect := { t := 1, N := (1, 0, 0), matId := 2 }

/-- Grazing intersection with a surface of the sentinel-indexed material,
hit from inside the glass (an entering transition into a lower-index
medium). -/
def iAir : isect := { t := 1, N := (1, 0, 0), matId := 0 }

/-- Renderer state with no scene loaded (null scene pointer). -/
def stNull : RTState :=
  { buffer := fun _ => 0, buffer_width := 4, buffer_height := 4, scene := none }

/-- Flipping the normal does not change which material was hit. -/
theorem flipIsect_matId (p : TraceParam) (i0 : isect) :
    (flipIsect p i0).matId = i0.matId := by
  unfold flipIsect
  split <;> rfl

/-- Line 45-50 of traceRay: when every channel of the weight is at or
below the intensity threshold, the result is the zero colour, for every
scene (the scene argument is arbitrary, so the scene is not consulted). -/
theorem traceRay_zero_of_thresh (cfg : Config) (s : Scene) (p : TraceParam)
    (h : p.thresh.1 ≤ cfg.intensityThreshold
      ∧ p.thresh.2.1 ≤ cfg.intensityThreshold
      ∧ p.thresh.2.2 ≤ cfg.intensityThreshold) :
    traceRay cfg s p = 0 := by
  rw [traceRay.eq_def]
  exact if_pos h

/-- When the weight is above threshold and the scene reports a hit,
traceRay evaluates its hit branch. -/
theorem traceRay_eq_hit (cfg : Config) (s : Scene) (p : TraceParam) (i0 : isect)
    (hth : ¬ (p.thresh.1 ≤ cfg.intensityThreshold
      ∧ p.thresh.2.1 ≤ cfg.intensityThreshold
      ∧ p.thresh.2.2 ≤ cfg.intensityThreshold))
    (hhit : s.intersect p.r = some i0) :
    traceRay cfg s p = traceRayHit cfg s p i0 := by
  rw [traceRay.eq_def, if_neg hth, hhit]

/-- Guard of traceReflection (line 113): zero reflectivity or exhausted
depth yields the zero contribution. -/
theorem traceReflection_zero_of_guard (cfg : Config) (s : Scene)
    (p : TraceParam) (i : isect)
    (h : (s.mat i.matId).kr = 0 ∨ cfg.maxDepth ≤ p.depth) :
    traceReflection cfg s p i = 0 := by
  rw [traceReflection.eq_def]
  exact dif_pos h

set_option maxHeartbeats 4000000 in
/-- Guard of traceRefraction (line 163): zero transmissivity or exhausted
depth yields the zero contribution. -/
theorem traceRefraction_zero_of_guard (cfg : Config) (s : Scene)
    (p : TraceParam) (i : isect)
    (h : ¬ (¬ (s.mat i.matId).kt = 0 ∧ p.depth < cfg.maxDepth)) :
    traceRefraction cfg s p i = 0 := by
  rw [traceRefraction.eq_def]
  exact dif_neg h

/-- Mirror fast path of traceReflection (lines 126-137): with glossy
sample count 0 it traces exactly one reflected ray. -/
theorem traceReflection_eq_mirror (cfg : Config) (s : Scene)
    (p : TraceParam) (i : isect)
    (hkr : ¬ (s.mat i.matId).kr = 0) (hd : p.depth < cfg.maxDepth)
    (hg : cfg.glossyReflectionSample = 0) :
    traceReflection cfg s p i =
      traceRay cfg s (reflectNextParam p (s.mat i.matId).kr
        (p.r.at i.t + RAY_EPSILON • i.N)
        (normalize cfg.sq ((2 * dot i.N (-p.r.dir)) • i.N - -p.r.dir))) := by
  rw [traceReflection.eq_def]
  rw [dif_neg (not_or.mpr ⟨hkr, not_le.mpr hd⟩)]
  exact if_pos hg

/-- Glossy path of traceReflection (lines 138-156): with glossy sample
count n > 0 it averages n cone-sampled reflected rays. -/
theorem traceReflection_eq_glossy (cfg : Config) (s : Scene)
    (p : TraceParam) (i : isect)
    (hkr : ¬ (s.mat i.matId).kr = 0) (hd : p.depth < cfg.maxDepth)
    (hg : cfg.glossyReflectionSample ≠ 0) :
    traceReflection cfg s p i =
      vdiv
        (∑ j in Finset.range cfg.glossyReflectionSample,
          traceRay cfg s (reflectNextParam p (s.mat i.matId).kr
            (p.r.at i.t + RAY_EPSILON • i.N)
            (cfg.coneSample
              (normalize cfg.sq ((2 * dot i.N (-p.r.dir)) • i.N - -p.r.dir)) j)))
        (cfg.glossyReflectionSample : ℚ) := by
  rw [traceReflection.eq_def]
  rw [dif_neg (not_or.mpr ⟨hkr, not_le.mpr hd⟩)]
  exact if_neg hg

/-- Total internal reflection (lines 189-194): a negative discriminant
means no refracted ray is spawned. -/
theorem refractionDir_eq_none (cfg : Config) (s : Scene)
    (p : TraceParam) (i : isect)
    (hroot : 1 - refractNi s p i / refractNt s p i
        * (refractNi s p i / refractNt s p i)
        * (1 - dot i.N (-p.r.dir) * dot i.N (-p.r.dir)) < 0) :
    refractionDir cfg s p i = none := by
  unfold refractionDir
  exact if_pos hroot

/-- Lines 195-199: a nonnegative discriminant yields the transmitted
direction. -/
theorem refractionDir_eq_some (cfg : Config) (s : Scene)
    (p : TraceParam) (i : isect)
    (hroot : ¬ (1 - refractNi s p i / refractNt s p i
        * (refractNi s p i / refractNt s p i)
        * (1 - dot i.N (-p.r.dir) * dot i.N (-p.r.dir)) < 0)) :
    refractionDir cfg s p i =
      some ((refractNi s p i / refractNt s p i * dot i.N (-p.r.dir)
          - cfg.sq (1 - refractNi s p i / refractNt s p i
              * (refractNi s p i / refractNt s p i)
              * (1 - dot i.N (-p.r.dir) * dot i.N (-p.r.dir)))) • i.N
        - (refractNi s p i / refractNt s p i) • -p.r.dir) := by
  unfold refractionDir
  exact if_neg hroot

/-- When the guard of line 163 holds but the discriminant is negative,
traceRefraction returns the zero colour. -/
theorem traceRefraction_zero_of_tir (cfg : Config) (s : Scene)
    (p : TraceParam) (i : isect)
    (hg : ¬ (s.mat i.matId).kt = 0 ∧ p.depth < cfg.maxDepth)
    (hroot : 1 - refractNi s p i / refractNt s p i
        * (refractNi s p i / refractNt s p i)
        * (1 - dot i.N (-p.r.dir) * dot i.N (-p.r.dir)) < 0) :
    traceRefraction cfg s p i = 0 := by
  rw [traceRefraction.eq_def, dif_pos hg, refractionDir_eq_none cfg s p i hroot]

/-- Transmitted spawn of traceRefraction (lines 195-209). -/
theorem traceRefraction_eq_spawn (cfg : Config) (s : Scene)
    (p : TraceParam) (i : isect) (d : vec3f)
    (hg : ¬ (s.mat i.matId).kt = 0 ∧ p.depth < cfg.maxDepth)
    (hd : refractionDir cfg s p i = some d) :
    traceRefraction cfg s p i =
      traceRay cfg s (refractNextParam p (s.mat i.matId).kt
        (p.r.at i.t - RAY_EPSILON • i.N) d (refractStackUpdate p i)) := by
  rw [traceRefraction.eq_def, dif_pos hg, hd]

/-- Hit branch without the Fresnel blend (lines 97 with the condition of
line 85-87 false): local intensity plus the enabled branch results. -/
theorem traceRayHit_no_fresnel (cfg : Config) (s : Scene) (p : TraceParam)
    (i0 : isect)
    (hf : ¬ (cfg.isEnableFresnel = true
      ∧ ((s.mat (stackFront p.material_stack)).index ≠ 1
          ∨ (s.mat (flipIsect p i0).matId).index ≠ 1))) :
    traceRayHit cfg s p i0 =
      vprod ((s.mat (flipIsect p i0).matId).shade p.r (flipIsect p i0)) p.thresh
      + (if cfg.isEnableReflection then traceReflection cfg s p (flipIsect p i0) else 0)
      + (if cfg.isEnableRefraction then traceRefraction cfg s p (flipIsect p i0) else 0) := by
  rw [traceRayHit.eq_def]
  exact if_neg hf

/-- Hit branch with the Fresnel blend applied (lines 85-97). -/
theorem traceRayHit_fresnel (cfg : Config) (s : Scene) (p : TraceParam)
    (i0 : isect)
    (hf : cfg.isEnableFresnel = true
      ∧ ((s.mat (stackFront p.material_stack)).index ≠ 1
          ∨ (s.mat (flipIsect p i0).matId).index ≠ 1)) :
    traceRayHit cfg s p i0 =
      vprod ((s.mat (flipIsect p i0).matId).shade p.r (flipIsect p i0)) p.thresh
      + ((cfg.fresnelBlend * GetFresnelCoeff cfg s p (flipIsect p i0)) •
            (if cfg.isEnableReflection then traceReflection cfg s p (flipIsect p i0) else 0)
          + (1 - cfg.fresnelBlend) •
            (if cfg.isEnableReflection then traceReflection cfg s p (flipIsect p i0) else 0))
      + ((cfg.fresnelBlend * (1 - GetFresnelCoeff cfg s p (flipIsect p i0))) •
            (if cfg.isEnableRefraction then traceRefraction cfg s p (flipIsect p i0) else 0)
          + (1 - cfg.fresnelBlend) •
            (if cfg.isEnableRefraction then traceRefraction cfg s p (flipIsect p i0) else 0)) := by
  rw [traceRayHit.eq_def]
  exact if_pos hf

/-- The initial material stack satisfies the stack invariant. -/
theorem goodStack_airId : GoodStack [airId] :=
  ⟨by simp, rfl, by simp⟩

/-- The stack update of traceRefraction preserves the invariant as long
as the hit material is not the air sentinel: a pop happens only when the
front equals the hit material, which the sentinel never does. -/
theorem goodStack_refractStackUpdate (p : TraceParam) (i : isect)
    (hg : GoodStack p.material_stack) (hi : i.matId ≠ airId) :
    GoodStack (refractStackUpdate p i) := by
  obtain ⟨hne, hlast, hmem⟩ := hg
  unfold refractStackUpdate
  by_cases hl : IsLeavingObject p i
  · rw [if_pos hl]
    have hfront : i.matId = stackFront p.material_stack := by
      simpa [IsLeavingObject] using hl
    match hmat : p.material_stack with
    | [] => exact absurd hmat hne
    | [a] =>
      exfalso
      rw [hmat] at hlast hfront
      simp [stackFront] at hfront
      simp at hlast
      exact hi (hfront.trans hlast)
    | a :: b :: t =>
      rw [hmat] at hlast hmem
      rw [List.getLast?_cons_cons] at hlast
      rw [List.dropLast_cons₂] at hmem
      exact ⟨by simp, hlast, fun hmem2 => hmem (List.mem_cons_of_mem a hmem2)⟩
  · rw [if_neg hl]
    match hmat : p.material_stack with
    | [] => exact absurd hmat hne
    | a :: t =>
      rw [hmat] at hlast hmem
      refine ⟨by simp, ?_, ?_⟩
      · rw [List.getLast?_cons_cons]
        exact hlast
      · rw [List.dropLast_cons₂]
        intro hmem2
        rcases List.mem_cons.mp hmem2 with h1 | h1
        · exact hi h1.symm
        · exact hmem h1

/-- Each spawn keeps the stack invariant (reflection copies the stack,
refraction updates it through `refractStackUpdate`). -/
theorem goodStack_reach (cfg : Config) (s : Scene) (hs : SceneOK s)
    {p q : TraceParam}
    (h : Relation.ReflTransGen (TraceStep cfg s) p q)
    (hg : GoodStack p.material_stack) : GoodStack q.material_stack := by
  induction h with
  | refl => exact hg
  | tail hr hstep ih =>
    cases hstep with
    | reflect i0 out_point dir hhit hd => exact ih
    | refract i0 push_point dir hhit hd =>
      refine goodStack_refractStackUpdate _ _ ih ?_
      rw [flipIsect_matId]
      exact hs _ _ hhit

/-- Every spawn goes exactly one level deeper and never beyond the
configured maximum. -/
theorem traceStep_depth (cfg : Config) (s : Scene) (p q : TraceParam)
    (h : TraceStep cfg s p q) :
    q.depth = p.depth + 1 ∧ q.depth ≤ cfg.maxDepth := by
  cases h with
  | reflect i0 out_point dir hhit hd =>
    refine ⟨rfl, ?_⟩
    show p.depth + 1 ≤ cfg.maxDepth
    omega
  | refract i0 push_point dir hhit hd =>
    refine ⟨rfl, ?_⟩
    show p.depth + 1 ≤ cfg.maxDepth
    omega

/-- Depth is monotone along any chain of spawns and stays bounded by the
configured maximum. -/
theorem reach_depth (cfg : Config) (s : Scene) {p q : TraceParam}
    (h : Relation.ReflTransGen (TraceStep cfg s) p q) :
    p.depth ≤ q.depth ∧ (p.depth ≤ cfg.maxDepth → q.depth ≤ cfg.maxDepth) := by
  induction h with
  | refl => exact ⟨le_refl _, fun h1 => h1⟩
  | tail hr hstep ih =>
    obtain ⟨hdq, hbound⟩ := traceStep_depth cfg s _ _ hstep
    exact ⟨by omega, fun _ => hbound⟩

/-- Dividing an n-fold sum of one vector by n gives the vector back. -/
theorem vdiv_nsmul_cancel (n : ℕ) (hn : n ≠ 0) (v : vec3f) :
    vdiv (n • v) (n : ℚ) = v := by
  obtain ⟨a, b, c⟩ := v
  have hq : (n : ℚ) ≠ 0 := Nat.cast_ne_zero.mpr hn
  simp [vdiv, Prod.smul_mk, nsmul_eq_mul, mul_div_cancel_left₀, hq]

/-- In the mirror scene, any context at depth at least 1 with full weight
and the sentinel stack yields exactly the local shading: both branches
are cut off by the depth guard or the zero transmissivity. -/
theorem mirror_depth1 (p : TraceParam) (hth : p.thresh = (1, 1, 1))
    (hst : p.material_stack = [airId]) (hd : 1 ≤ p.depth) :
    traceRay cfgBase mirrorScene p = (1/2, 1/4, 1/5) := by
  have hflip : flipIsect p iW = iW := by
    simp [flipIsect, IsLeavingObject, stackFront, hst, airId, iW]
  rw [traceRay_eq_hit cfgBase mirrorScene p iW
      (by rw [hth]; norm_num [cfgBase]) rfl]
  rw [traceRayHit_no_fresnel cfgBase mirrorScene p iW (by simp [cfgBase])]
  rw [hflip]
  have hrefl : traceReflection cfgBase mirrorScene p iW = 0 :=
    traceReflection_zero_of_guard _ _ _ _ (Or.inr (by simpa [cfgBase] using hd))
  have hrefr : traceRefraction cfgBase mirrorScene p iW = 0 :=
    traceRefraction_zero_of_guard _ _ _ _ (by rintro ⟨hk, -⟩; exact hk rfl)
  rw [hrefl, hrefr]
  simp only [ite_self]
  rw [hth]
  norm_num [mirrorScene, iW, mirrorMaterial, vprod]

/-- C1: the recursive calls spawned by traceReflection and traceRefraction
carry recursion depth exactly depth + 1; each branch returns zero whenever
the depth already reached the configured maximum; consequently depth is
monotonically non-decreasing along any path and bounded by the maximum. -/
theorem recursion_depth_discipline (cfg : Config) (s : Scene)
    (p q : TraceParam) (i : isect)
    (kr kt out_point push_point dir : vec3f) (st : List ℕ)
    (hreach : Relation.ReflTransGen (TraceStep cfg s) p q) :
    (reflectNextParam p kr out_point dir).depth = p.depth + 1
    ∧ (refractNextParam p kt push_point dir st).depth = p.depth + 1
    ∧ (cfg.maxDepth ≤ p.depth → traceReflection cfg s p i = 0)
    ∧ (cfg.maxDepth ≤ p.depth → traceRefraction cfg s p i = 0)
    ∧ p.depth ≤ q.depth
    ∧ (p.depth ≤ cfg.maxDepth → q.depth ≤ cfg.maxDepth) := by
  obtain ⟨h1, h2⟩ := reach_depth cfg s hreach
  refine ⟨rfl, rfl,
    fun hd => traceReflection_zero_of_guard cfg s p i (Or.inr hd),
    fun hd => traceRefraction_zero_of_guard cfg s p i ?_, h1, h2⟩
  rintro ⟨-, hlt⟩
  omega

/-- Witness for C1 at the concrete mirror-scene context. -/
theorem recursion_depth_discipline_witness :
    (reflectNextParam pW 0 0 0).depth = pW.depth + 1
    ∧ (refractNextParam pW 0 0 0 []).depth = pW.depth + 1
    ∧ (cfgBase.maxDepth ≤ pW.depth → traceReflection cfgBase mirrorScene pW iW = 0)
    ∧ (cfgBase.maxDepth ≤ pW.depth → traceRefraction cfgBase mirrorScene pW iW = 0)
    ∧ pW.depth ≤ pW.depth
    ∧ (pW.depth ≤ cfgBase.maxDepth → pW.depth ≤ cfgBase.maxDepth) :=
  recursion_depth_discipline cfgBase mirrorScene pW pW iW 0 0 0 0 0 []
    Relation.ReflTransGen.refl

/-- C2: the recursion is total (the definitions above are accepted with
the well-founded measure maxDepth - depth), and the end-to-end scenario of
a fully mirrored surface (kr = (1,1,1), kt = 0) traced into itself with
depth limit 1 terminates with a finite clamped colour. -/
theorem mirror_sphere_terminates :
    trace cfgBase mirrorScene rayW = (1, 1/2, 2/5) := by
  unfold trace
  have hflip : flipIsect (initParam rayW) iW = iW := by
    simp [flipIsect, IsLeavingObject, stackFront, initParam, airId, iW]
  rw [traceRay_eq_hit cfgBase mirrorScene (initParam rayW) iW
      (by norm_num [initParam, cfgBase]) rfl]
  rw [traceRayHit_no_fresnel cfgBase mirrorScene (initParam rayW) iW
      (by simp [cfgBase])]
  rw [hflip]
  have hrefr : traceRefraction cfgBase mirrorScene (initParam rayW) iW = 0 :=
    traceRefraction_zero_of_guard _ _ _ _ (by rintro ⟨hk, -⟩; exact hk rfl)
  have hkr : ¬ (mirrorScene.mat iW.matId).kr = 0 := by
    norm_num [mirrorScene, iW, mirrorMaterial]
  have hd0 : (initParam rayW).depth < cfgBase.maxDepth := by
    norm_num [initParam, cfgBase]
  have hrefl := traceReflection_eq_mirror cfgBase mirrorScene (initParam rayW) iW
    hkr hd0 rfl
  have hchild : traceRay cfgBase mirrorScene
      (reflectNextParam (initParam rayW) (mirrorScene.mat iW.matId).kr
        ((initParam rayW).r.at iW.t + RAY_EPSILON • iW.N)
        (normalize cfgBase.sq
          ((2 * dot iW.N (-(initParam rayW).r.dir)) • iW.N
            - -(initParam rayW).r.dir)))
      = (1/2, 1/4, 1/5) := by
    apply mirror_depth1
    · norm_num [reflectNextParam, initParam, vprod, mirrorScene, iW, mirrorMaterial]
    · rfl
    · norm_num [reflectNextParam]
  rw [hrefl, hchild, hrefr]
  simp only [ite_self]
  rw [if_pos (show cfgBase.isEnableReflection = true from rfl)]
  norm_num [initParam, mirrorScene, iW, mirrorMaterial, vprod, clamp,
    min_def, max_def]

/-- C3: a weight at or below the intensity threshold on every channel
makes traceRay return the zero colour immediately; the scene argument is
universally quantified, so the result holds for every scene whatsoever
and in particular the scene is never consulted on this path. -/
theorem threshold_prunes (cfg : Config) (s : Scene) (p : TraceParam)
    (h1 : p.thresh.1 ≤ cfg.intensityThreshold)
    (h2 : p.thresh.2.1 ≤ cfg.intensityThreshold)
    (h3 : p.thresh.2.2 ≤ cfg.intensityThreshold) :
    traceRay cfg s p = 0 :=
  traceRay_zero_of_thresh cfg s p ⟨h1, h2, h3⟩

/-- Witness for C3: a context with zero weight under the default
threshold. -/
theorem threshold_prunes_witness : traceRay cfgBase mirrorScene pLow = 0 :=
  threshold_prunes cfgBase mirrorScene pLow
    (by norm_num [pLow, cfgBase]) (by norm_num [pLow, cfgBase])
    (by norm_num [pLow, cfgBase])

/-- C4: along every trace path from the top level the material stack
stays nonempty with the air sentinel at the bottom (the sentinel is never
popped, since a pop requires the hit material to be reference-equal to
the stack front, which never holds for the sentinel), and entering a
transmissive material then immediately exiting it restores the exact
prior stack on the branch copy. -/
theorem material_stack_invariant (cfg : Config) (s : Scene) (r0 : ray)
    (q p : TraceParam) (i i2 : isect) (kt push_point dir : vec3f)
    (hs : SceneOK s)
    (hreach : Relation.ReflTransGen (TraceStep cfg s) (initParam r0) q)
    (hent : IsLeavingObject p i = false)
    (hexit : i2.matId = i.matId) :
    (q.material_stack ≠ [] ∧ q.material_stack.getLast? = some airId)
    ∧ refractStackUpdate
        (refractNextParam p kt push_point dir (refractStackUpdate p i)) i2
      = p.material_stack := by
  constructor
  · have hg := goodStack_reach cfg s hs hreach goodStack_airId
    exact ⟨hg.1, hg.2.1⟩
  · have hpush : refractStackUpdate p i = i.matId :: p.material_stack := by
      unfold refractStackUpdate
      rw [if_neg (by simp [hent])]
    rw [hpush]
    unfold refractStackUpdate
    rw [if_pos (by simp [IsLeavingObject, stackFront, refractNextParam, hexit])]
    rfl

/-- Witness for C4 at the top-level context of the mirror scene. -/
theorem material_stack_invariant_witness :
    ((initParam rayW).material_stack ≠ []
      ∧ (initParam rayW).material_stack.getLast? = some airId)
    ∧ refractStackUpdate
        (refractNextParam pW 0 0 0 (refractStackUpdate pW iW)) iW
      = pW.material_stack :=
  material_stack_invariant cfgBase mirrorScene rayW (initParam rayW) pW iW iW
    0 0 0
    (by
      intro r i h
      simp only [mirrorScene, Option.some.injEq] at h
      subst h
      simp [airId])
    Relation.ReflTransGen.refl rfl rfl

/-- C5: GetFresnelCoeff assigns (ni, nt) by the leaving-vs-entering test,
computes r0 = ((ni-nt)/(ni+nt))^2 and cos = N . (-direction), returns the
Schlick term with (1-cos)^5 when ni is at most nt, returns exactly 1 under
total internal reflection (negative discriminant with ni > nt), and
otherwise uses the transmitted-side term sqrt(1 - ni/nt) as specified. -/
theorem fresnel_coeff_cases (cfg : Config) (s : Scene) (p : TraceParam)
    (i : isect) :
    ((IsLeavingObject p i = true →
        fresnelNi s p i = (s.mat i.matId).index
        ∧ fresnelNt s p i = (s.mat (stackFront p.material_stack)).index)
      ∧ (IsLeavingObject p i = false →
        fresnelNi s p i = (s.mat (stackFront p.material_stack)).index
        ∧ fresnelNt s p i = (s.mat i.matId).index))
    ∧ (fresnelNi s p i ≤ fresnelNt s p i →
        GetFresnelCoeff cfg s p i =
          ((fresnelNi s p i - fresnelNt s p i)
              / (fresnelNi s p i + fresnelNt s p i)) ^ 2
          + (1 - ((fresnelNi s p i - fresnelNt s p i)
              / (fresnelNi s p i + fresnelNt s p i)) ^ 2)
            * (1 - dot i.N (-p.r.dir)) ^ 5)
    ∧ (fresnelNt s p i < fresnelNi s p i →
        1 - (fresnelNi s p i / fresnelNt s p i) ^ 2
            * (1 - (dot i.N (-p.r.dir)) ^ 2) < 0 →
        GetFresnelCoeff cfg s p i = 1)
    ∧ (fresnelNt s p i < fresnelNi s p i →
        0 ≤ 1 - (fresnelNi s p i / fresnelNt s p i) ^ 2
            * (1 - (dot i.N (-p.r.dir)) ^ 2) →
        GetFresnelCoeff cfg s p i =
          ((fresnelNi s p i - fresnelNt s p i)
              / (fresnelNi s p i + fresnelNt s p i)) ^ 2
          + (1 - ((fresnelNi s p i - fresnelNt s p i)
              / (fresnelNi s p i + fresnelNt s p i)) ^ 2)
            * (1 - cfg.sq (1 - fresnelNi s p i / fresnelNt s p i)) ^ 5) := by
  have hcode : (1 : ℚ) - fresnelNi s p i / fresnelNt s p i
      * (fresnelNi s p i / fresnelNt s p i)
      * (1 - dot i.N (-p.r.dir) * dot i.N (-p.r.dir))
      = 1 - (fresnelNi s p i / fresnelNt s p i) ^ 2
        * (1 - (dot i.N (-p.r.dir)) ^ 2) := by ring
  refine ⟨⟨fun h => ⟨?_, ?_⟩, fun h => ⟨?_, ?_⟩⟩,
    fun hle => ?_, fun hlt hroot => ?_, fun hlt hroot => ?_⟩
  · simp [fresnelNi, h]
  · simp [fresnelNt, h]
  · simp [fresnelNi, h]
  · simp [fresnelNt, h]
  · simp only [GetFresnelCoeff]
    rw [if_pos hle]
  · simp only [GetFresnelCoeff]
    rw [if_neg (not_le.mpr hlt), if_pos (by rw [hcode]; exact hroot)]
  · simp only [GetFresnelCoeff]
    rw [if_neg (not_le.mpr hlt), if_neg (by rw [hcode]; exact not_lt.mpr hroot)]

/-- Witness for C5: entering a lower-index medium from the glass at
grazing incidence gives the total-internal-reflection coefficient 1. -/
theorem fresnel_coeff_cases_witness :
    GetFresnelCoeff cfgBase glassScene pGlass iAir = 1 :=
  (fresnel_coeff_cases cfgBase glassScene pGlass iAir).2.2.1
    (by norm_num [fresnelNi, fresnelNt, IsLeavingObject, stackFront, pGlass,
      iAir, glassScene, glassMaterial, airMaterial, airId])
    (by norm_num [fresnelNi, fresnelNt, IsLeavingObject, stackFront, pGlass,
      iAir, glassScene, glassMaterial, airMaterial, airId, dot])

/-- C6: with Fresnel enabled, traceRay applies the configured blend to
the reflection and refraction contributions exactly when the stack-front
medium or the hit material has refractive index different from 1; when
both indices are 1 the blend is skipped, and with Fresnel disabled the
contributions are returned unblended. -/
theorem fresnel_blend_exact (cfg : Config) (s : Scene) (p : TraceParam)
    (i0 : isect)
    (hth : ¬ (p.thresh.1 ≤ cfg.intensityThreshold
      ∧ p.thresh.2.1 ≤ cfg.intensityThreshold
      ∧ p.thresh.2.2 ≤ cfg.intensityThreshold))
    (hhit : s.intersect p.r = some i0) :
    (cfg.isEnableFresnel = true →
      ((s.mat (stackFront p.material_stack)).index ≠ 1
        ∨ (s.mat (flipIsect p i0).matId).index ≠ 1) →
      traceRay cfg s p =
        vprod ((s.mat (flipIsect p i0).matId).shade p.r (flipIsect p i0)) p.thresh
        + ((cfg.fresnelBlend * GetFresnelCoeff cfg s p (flipIsect p i0)) •
              (if cfg.isEnableReflection then traceReflection cfg s p (flipIsect p i0) else 0)
            + (1 - cfg.fresnelBlend) •
              (if cfg.isEnableReflection then traceReflection cfg s p (flipIsect p i0) else 0))
        + ((cfg.fresnelBlend * (1 - GetFresnelCoeff cfg s p (flipIsect p i0))) •
              (if cfg.isEnableRefraction then traceRefraction cfg s p (flipIsect p i0) else 0)
            + (1 - cfg.fresnelBlend) •
              (if cfg.isEnableRefraction then traceRefraction cfg s p (flipIsect p i0) else 0)))
    ∧ (cfg.isEnableFresnel = true →
        (s.mat (stackFront p.material_stack)).index = 1
          ∧ (s.mat (flipIsect p i0).matId).index = 1 →
        traceRay cfg s p =
          vprod ((s.mat (flipIsect p i0).matId).shade p.r (flipIsect p i0)) p.thresh
          + (if cfg.isEnableReflection then traceReflection cfg s p (flipIsect p i0) else 0)
          + (if cfg.isEnableRefraction then traceRefraction cfg s p (flipIsect p i0) else 0))
    ∧ (cfg.isEnableFresnel = false →
        traceRay cfg s p =
          vprod ((s.mat (flipIsect p i0).matId).shade p.r (flipIsect p i0)) p.thresh
          + (if cfg.isEnableReflection then traceReflection cfg s p (flipIsect p i0) else 0)
          + (if cfg.isEnableRefraction then traceRefraction cfg s p (flipIsect p i0) else 0)) := by
  refine ⟨fun hb hor => ?_, fun hb hone => ?_, fun hb => ?_⟩
  · rw [traceRay_eq_hit cfg s p i0 hth hhit,
      traceRayHit_fresnel cfg s p i0 ⟨hb, hor⟩]
  · rw [traceRay_eq_hit cfg s p i0 hth hhit,
      traceRayHit_no_fresnel cfg s p i0 (by
        rintro ⟨-, h | h⟩
        · exact h hone.1
        · exact h hone.2)]
  · rw [traceRay_eq_hit cfg s p i0 hth hhit,
      traceRayHit_no_fresnel cfg s p i0 (by
        rintro ⟨hb2, -⟩
        rw [hb] at hb2
        exact Bool.false_ne_true hb2)]

/-- Witness for C6: in the mirror scenario Fresnel is disabled, so the
contributions are returned unblended. -/
theorem fresnel_blend_exact_witness :
    traceRay cfgBase mirrorScene pW =
      vprod ((mirrorScene.mat (flipIsect pW iW).matId).shade pW.r (flipIsect pW iW)) pW.thresh
      + (if cfgBase.isEnableReflection then traceReflection cfgBase mirrorScene pW (flipIsect pW iW) else 0)
      + (if cfgBase.isEnableRefraction then traceRefraction cfgBase mirrorScene pW (flipIsect pW iW) else 0) :=
  (fresnel_blend_exact cfgBase mirrorScene pW iW
    (by norm_num [pW, initParam, cfgBase]) rfl).2.2 rfl

/-- C7: a negative discriminant (total internal reflection) makes
traceRefraction return exactly the zero colour and spawn no refracted
ray (the direction computation yields none), as a defined policy. -/
theorem total_internal_reflection_zero (cfg : Config) (s : Scene)
    (p : TraceParam) (i : isect)
    (hroot : 1 - (refractNi s p i / refractNt s p i) ^ 2
        * (1 - (dot i.N (-p.r.dir)) ^ 2) < 0) :
    traceRefraction cfg s p i = 0 ∧ refractionDir cfg s p i = none := by
  have hcode : (1 : ℚ) - refractNi s p i / refractNt s p i
      * (refractNi s p i / refractNt s p i)
      * (1 - dot i.N (-p.r.dir) * dot i.N (-p.r.dir))
      = 1 - (refractNi s p i / refractNt s p i) ^ 2
        * (1 - (dot i.N (-p.r.dir)) ^ 2) := by ring
  have hroot2 : 1 - refractNi s p i / refractNt s p i
      * (refractNi s p i / refractNt s p i)
      * (1 - dot i.N (-p.r.dir) * dot i.N (-p.r.dir)) < 0 := by
    rw [hcode]; exact hroot
  refine ⟨?_, refractionDir_eq_none cfg s p i hroot2⟩
  by_cases hg : ¬ (s.mat i.matId).kt = 0 ∧ p.depth < cfg.maxDepth
  · exact traceRefraction_zero_of_tir cfg s p i hg hroot2
  · exact traceRefraction_zero_of_guard cfg s p i hg

/-- Witness for C7: leaving the glass medium at grazing incidence. -/
theorem total_internal_reflection_zero_witness :
    traceRefraction cfgBase glassScene pGlass iGlass = 0
    ∧ refractionDir cfgBase glassScene pGlass iGlass = none :=
  total_internal_reflection_zero cfgBase glassScene pGlass iGlass
    (by norm_num [refractNi, refractNt, IsLeavingObject, stackFront, pGlass,
      iGlass, glassScene, glassMaterial, airMaterial, airId, dot])

/-- C8: with glossy sample count 0, traceReflection traces exactly one
mirror ray (direction 2(N.V)N - V normalised, origin displaced by epsilon
along the normal, attenuation multiplied by kr, depth + 1, same stack
copy), and the N-sample glossy path computes the same value whenever its
cone sampler returns the mirror direction. -/
theorem glossy_zero_matches_mirror (cfg : Config) (s : Scene)
    (p : TraceParam) (i : isect) (n : ℕ)
    (hkr : ¬ (s.mat i.matId).kr = 0) (hd : p.depth < cfg.maxDepth)
    (hg0 : cfg.glossyReflectionSample = 0) (hn : n ≠ 0)
    (hcone : ∀ c j, cfg.coneSample c j = c) :
    traceReflection cfg s p i =
      traceRay cfg s (reflectNextParam p (s.mat i.matId).kr
        (p.r.at i.t + RAY_EPSILON • i.N)
        (normalize cfg.sq ((2 * dot i.N (-p.r.dir)) • i.N - -p.r.dir)))
    ∧ traceReflection { cfg with glossyReflectionSample := n } s p i =
      traceRay { cfg with glossyReflectionSample := n } s
        (reflectNextParam p (s.mat i.matId).kr
          (p.r.at i.t + RAY_EPSILON • i.N)
          (normalize cfg.sq ((2 * dot i.N (-p.r.dir)) • i.N - -p.r.dir))) := by
  constructor
  · exact traceReflection_eq_mirror cfg s p i hkr hd hg0
  · have hrange : ({ cfg with glossyReflectionSample := n } : Config).glossyReflectionSample = n := rfl
    rw [traceReflection_eq_glossy { cfg with glossyReflectionSample := n }
      s p i hkr hd hn]
    rw [hrange]
    simp only [hcone]
    rw [Finset.sum_const, Finset.card_range]
    exact vdiv_nsmul_cancel n hn _

/-- Witness for C8 in the mirror scenario with two glossy samples. -/
theorem glossy_zero_matches_mirror_witness :
    traceReflection cfgBase mirrorScene pW iW =
      traceRay cfgBase mirrorScene (reflectNextParam pW (mirrorScene.mat iW.matId).kr
        (pW.r.at iW.t + RAY_EPSILON • iW.N)
        (normalize cfgBase.sq ((2 * dot iW.N (-pW.r.dir)) • iW.N - -pW.r.dir)))
    ∧ traceReflection { cfgBase with glossyReflectionSample := 2 } mirrorScene pW iW =
      traceRay { cfgBase with glossyReflectionSample := 2 } mirrorScene
        (reflectNextParam pW (mirrorScene.mat iW.matId).kr
          (pW.r.at iW.t + RAY_EPSILON • iW.N)
          (normalize cfgBase.sq ((2 * dot iW.N (-pW.r.dir)) • iW.N - -pW.r.dir))) :=
  glossy_zero_matches_mirror cfgBase mirrorScene pW iW 2
    (by norm_num [mirrorScene, iW, mirrorMaterial])
    (by norm_num [pW, initParam, cfgBase]) rfl (by norm_num)
    (fun c j => rfl)

/-- C9: with a null scene pointer, the traced entry points tracePixel and
traceLines return the state unchanged: no pixel is written and the scene
is never dereferenced. -/
theorem null_scene_noop (cfg : Config) (st : RTState) (i j a b : ℕ)
    (h : st.scene = none) :
    tracePixel cfg st i j = st ∧ traceLines cfg st a b = st := by
  unfold tracePixel traceLines
  rw [h]
  exact ⟨rfl, rfl⟩

/-- Witness for C9 at a concrete empty renderer state. -/
theorem null_scene_noop_witness :
    tracePixel cfgBase stNull 0 0 = stNull
    ∧ traceLines cfgBase stNull 0 4 = stNull :=
  null_scene_noop cfgBase stNull 0 0 0 4 rfl

/-- C10: on every leaving path GetFresnelCoeff draws both indices from
the one hit material (ni from the hit, nt from the identical stack
front), so ni = nt, r0 vanishes, the ni-le-nt branch is taken, and the
coefficient is exactly (1 - cos)^5, independent of the refractive index
of the medium the ray exits into. -/
theorem leaving_fresnel_coeff (cfg : Config) (s : Scene) (p : TraceParam)
    (i : isect) (h : IsLeavingObject p i = true) :
    fresnelNi s p i = fresnelNt s p i
    ∧ GetFresnelCoeff cfg s p i = (1 - dot i.N (-p.r.dir)) ^ 5 := by
  have hfront : stackFront p.material_stack = i.matId := by
    have h2 := h
    simp only [IsLeavingObject, beq_iff_eq] at h2
    exact h2.symm
  have hni : fresnelNi s p i = (s.mat i.matId).index := by
    simp [fresnelNi, h]
  have hnt : fresnelNt s p i = (s.mat i.matId).index := by
    simp [fresnelNt, h, hfront]
  refine ⟨hni.trans hnt.symm, ?_⟩
  simp only [GetFresnelCoeff]
  rw [if_pos (le_of_eq (hni.trans hnt.symm))]
  rw [hni, hnt, sub_self, zero_div]
  norm_num

/-- Witness for C10: leaving the glass medium. -/
theorem leaving_fresnel_coeff_witness :
    fresnelNi glassScene pGlass iGlass = fresnelNt glassScene pGlass iGlass
    ∧ GetFresnelCoeff cfgBase glassScene pGlass iGlass
      = (1 - dot iGlass.N (-pGlass.r.dir)) ^ 5 :=
  leaving_fresnel_coeff cfgBase glassScene pGlass iGlass rfl

end RT
